import Mathlib

/-!
Verification of the multi-tenant todo backend (Express + Neo4j).

The graph database is modelled as a `Store`: lists of node records (tenants,
users, invite keys, todos, categories) together with id-keyed relationship
lists (HAS_USER, BELONGS_TO, CREATED_BY, HAS_CATEGORY, INVITED,
INVITED_TENANT).  Node ids act as node identities; the deployed database
generates them with randomUUID and enforces uniqueness of invite keys with a
constraint.  Each route handler from `src/backend/src/routes` is embedded as
a pure function from a store (plus the request data and the values produced
by the ambient effects: current time, fresh UUIDs, password hashing and
comparison) to the next store and an HTTP response.  Cypher MATCH patterns
become boolean predicates over the store; a single Cypher statement is one
atomic step of the function, matching the per-query atomicity of the engine.
-/

namespace TodoApp

/-- A Tenant node, as created by POST /api/tenant/create. -/
structure Tenant where
  id : String
  name : String
  slug : String
  isActive : Bool
  deriving DecidableEq, Repr

/-- A User node.  `created_at` is the epochMillis value from the creation query. -/
structure User where
  id : String
  tenant_id : String
  username : String
  email : String
  full_name : String
  password : String
  role : String
  created_at : Nat
  deriving DecidableEq, Repr

/-- An InviteKey node, pre-provisioned by the seed script. -/
structure InviteKey where
  key : String
  isUsed : Bool
  usedAt : Option Nat
  usedBy : Option String
  deriving DecidableEq, Repr

/-- A Todo node.  Timestamps are the ISO strings produced by the handlers. -/
structure Todo where
  id : String
  title : String
  description : Option String
  is_completed : Bool
  due_date : Option String
  priority : String
  completed_at : Option String
  created_at : String
  updated_at : String
  user_id : String
  tenant_id : String
  category_id : Option String
  deriving DecidableEq, Repr

/-- A Category node. -/
structure Category where
  id : String
  name : String
  color : String
  icon : Option String
  created_at : String
  user_id : String
  tenant_id : String
  deriving DecidableEq, Repr

/-- The graph database state: node records plus id-keyed relationship lists.
Relationship pairs are (source node id, target node id); for INVITED and
INVITED_TENANT the source is the invite key string (the unique key of the
InviteKey node). -/
structure Store where
  tenants : List Tenant
  users : List User
  inviteKeys : List InviteKey
  todos : List Todo
  categories : List Category
  hasUser : List (String × String)
  todoBelongsTo : List (String × String)
  todoCreatedBy : List (String × String)
  catBelongsTo : List (String × String)
  catCreatedBy : List (String × String)
  hasCategory : List (String × String)
  invited : List (String × String)
  invitedTenant : List (String × String)
  deriving DecidableEq, Repr

/-- The verified identity claims `req.user` attached by requireAuth. -/
structure Identity where
  userId : String
  tenantId : String
  role : String
  deriving DecidableEq, Repr

/-- HTTP responses the embedded handlers produce. -/
inductive Resp where
  | okLookup (tenantId redirectTo : String)
  | okLogin (token : String) (user : User)
  | okTodo (todo : Todo)
  | okTodos (todos : List Todo)
  | okCategory (category : Category)
  | okCategories (categories : List Category)
  | okMsg (message : String)
  | createdTenant (tenant : Tenant) (user : User)
  | createdUser (user : User)
  | createdTodo (todo : Todo)
  | createdCategory (category : Category)
  | badRequest (message : String)
  | unauthorized (message : String)
  | forbidden (message : String)
  | notFound (message : String)
  deriving DecidableEq, Repr

/-- The HTTP status code of a response. -/
def Resp.status : Resp → Nat
  | .okLookup _ _ => 200
  | .okLogin _ _ => 200
  | .okTodo _ => 200
  | .okTodos _ => 200
  | .okCategory _ => 200
  | .okCategories _ => 200
  | .okMsg _ => 200
  | .createdTenant _ _ => 201
  | .createdUser _ => 201
  | .createdTodo _ => 201
  | .createdCategory _ => 201
  | .badRequest _ => 400
  | .unauthorized _ => 401
  | .forbidden _ => 403
  | .notFound _ => 404

/-- JavaScript truthiness of a string: only the empty string is falsy among
the strings that reach the handlers. -/
def jsTruthy (s : String) : Bool := s != ""

/-- The `value || null` normalisation the handlers apply to optional string
fields: absent and null both become null, and a falsy (empty) string becomes
null as well. -/
def jsOrNull : Option String → Option String
  | some s => if jsTruthy s then some s else none
  | none => none

/-- Whether the relationship list contains an edge from `a` to `b`. -/
def hasEdge (es : List (String × String)) (a b : String) : Bool :=
  es.any (fun e => e.1 == a && e.2 == b)

/-- Cypher MERGE on a relationship: add the edge unless it is already present. -/
def mergeEdge (es : List (String × String)) (a b : String) : List (String × String) :=
  if hasEdge es a b then es else es ++ [(a, b)]

/-- The local part of an email address, as computed by `split(email, @)[0]`
in the user-creation queries. -/
def localPart (email : String) : String :=
  String.mk (email.toList.takeWhile (fun c => c != '@'))

/-- Whether a Tenant node with the given id exists. -/
def Store.hasTenantNode (s : Store) (tid : String) : Bool :=
  s.tenants.any (fun t => t.id == tid)

/-- Whether a User node with the given id exists. -/
def Store.hasUserNode (s : Store) (uid : String) : Bool :=
  s.users.any (fun u => u.id == uid)

/-- Whether a Category node with the given id exists. -/
def Store.hasCategoryNode (s : Store) (cid : String) : Bool :=
  s.categories.any (fun c => c.id == cid)

/-- Whether a Todo node with the given id exists. -/
def Store.hasTodoNode (s : Store) (tid : String) : Bool :=
  s.todos.any (fun t => t.id == tid)

/-- The membership check `MATCH (t:Tenant {id})-[:HAS_USER]->(u:User {id})`
run by the todo and category create handlers before any mutation. -/
def membershipOk (s : Store) (tenantId userId : String) : Bool :=
  s.hasTenantNode tenantId && s.hasUserNode userId && hasEdge s.hasUser tenantId userId

/-- The pattern `(t:Tenant {id})<-[:BELONGS_TO]-(todo)-[:CREATED_BY]->(u:User {id})`
shared by the todo list, get and update queries. -/
def todoScope (s : Store) (tenantId userId : String) (todo : Todo) : Bool :=
  s.hasTenantNode tenantId && s.hasUserNode userId &&
  hasEdge s.todoBelongsTo todo.id tenantId && hasEdge s.todoCreatedBy todo.id userId

/-- The analogous owner and tenant scoped pattern for categories. -/
def categoryScope (s : Store) (tenantId userId : String) (c : Category) : Bool :=
  s.hasTenantNode tenantId && s.hasUserNode userId &&
  hasEdge s.catBelongsTo c.id tenantId && hasEdge s.catCreatedBy c.id userId

/-- Request body of POST /api/tenant/create after zod validation. -/
structure TenantCreateDto where
  name : String
  slug : String
  email : String
  fullName : String
  password : String
  inviteKey : String
  deriving DecidableEq, Repr

/-- Request body of POST /api/user/create after zod validation. -/
structure CreateUserDto where
  email : String
  fullName : String
  password : String
  role : String
  deriving DecidableEq, Repr

/-- Request body of POST /api/todos after zod validation.  For the optional
string fields the handler collapses absent, null and empty to null via
`value || null`, so a single Option level suffices. -/
structure CreateTodoDto where
  title : String
  description : Option String
  is_completed : Bool
  due_date : Option String
  priority : String
  category_id : Option String
  deriving DecidableEq, Repr

/-- Request body of PUT /api/todos/:id.  The outer Option is key presence in
the JSON body; for the nullable fields the inner Option is the explicit
null.  The first six fields are the documented schema keys.  The validate
middleware calls schema.parse but discards its result and passes the raw
req.body on, and the update schema is a plain (non-strict) zod object, so
unknown keys survive validation and are spread into the map the handler
writes with `SET todo += $updateMap`.  The remaining fields model such raw
writes to the other Todo properties: completed_at (overridden by the
is_completed branch when that key is present), created_at, user_id and
tenant_id.  A raw updated_at key is always overwritten by the handler and
has no effect; a raw id key would rename the id property of the node,
changing which node later property-matched queries see — the id-keyed
relationship lists of this embedding identify a node with its id, so
id-renaming bodies (and non-string values for the mandatory properties) are
outside the model. -/
structure UpdateTodoDto where
  title : Option String
  description : Option String
  is_completed : Option Bool
  due_date : Option (Option String)
  priority : Option String
  category_id : Option (Option String)
  completed_at : Option (Option String)
  created_at : Option String
  user_id : Option String
  tenant_id : Option String
  deriving DecidableEq, Repr

/-- Request body of POST /api/categories after zod validation. -/
structure CreateCategoryDto where
  name : String
  color : String
  icon : Option String
  deriving DecidableEq, Repr

/-- Request body of PUT /api/categories/:id.  The first three fields are
the documented schema keys; as for todos, the raw req.body passes through
validation unchanged and is written with `SET category += $updates`, so the
remaining fields model raw writes to the other Category properties
(created_at, user_id, tenant_id).  A raw id key would rename the node and
is outside the model for the same reason as for todos. -/
structure UpdateCategoryDto where
  name : Option String
  color : Option String
  icon : Option String
  created_at : Option String
  user_id : Option String
  tenant_id : Option String
  deriving DecidableEq, Repr

/-- POST /api/tenant/lookup: match a tenant by exact name or slug where
isActive, 404 otherwise. -/
def tenantLookup (s : Store) (tenantName : String) : Resp :=
  match s.tenants.find? (fun t => (t.name == tenantName || t.slug == tenantName) && t.isActive) with
  | none => .notFound "Tenant not found"
  | some t => .okLookup t.id (String.append "/login?tenant=" t.id)

/-- The SET clause of the tenant-creation query, applied to every InviteKey
node whose key matches. -/
def markInviteUsed (key : String) (now : Nat) (uid : String) (k : InviteKey) : InviteKey :=
  if k.key == key then { k with isUsed := true, usedAt := some now, usedBy := some uid } else k

/-- The admin User node built by the tenant-creation query. -/
def mkAdminUser (dto : TenantCreateDto) (hashed : String) (now : Nat) (tid uid : String) : User :=
  { id := uid, tenant_id := tid, username := localPart dto.email, email := dto.email,
    full_name := dto.fullName, password := hashed, role := "admin", created_at := now }

/-- POST /api/tenant/create: duplicate slug-or-email check, then invite key
check, then one atomic creation query that builds the Tenant, the admin
User, the HAS_USER, INVITED and INVITED_TENANT relationships and marks the
invite key used.  `hashed` is the bcrypt digest of the password, `now` the
epochMillis timestamp, `newTenantId` and `newUserId` the generated UUIDs. -/
def tenantCreate (s : Store) (dto : TenantCreateDto) (hashed : String) (now : Nat)
    (newTenantId newUserId : String) : Store × Resp :=
  if s.tenants.any (fun t => t.slug == dto.slug) || s.users.any (fun u => u.email == dto.email) then
    (s, .badRequest "Tenant slug or email already exists")
  else if !(s.inviteKeys.any (fun k => k.key == dto.inviteKey && k.isUsed == false)) then
    (s, .badRequest "Invalid or already used invite key")
  else
    let tenant : Tenant := { id := newTenantId, name := dto.name, slug := dto.slug, isActive := true }
    let user : User := mkAdminUser dto hashed now newTenantId newUserId
    ({ s with
        tenants := s.tenants ++ [tenant],
        users := s.users ++ [user],
        hasUser := s.hasUser ++ [(newTenantId, newUserId)],
        invited := s.invited ++ [(dto.inviteKey, newUserId)],
        invitedTenant := s.invitedTenant ++ [(dto.inviteKey, newTenantId)],
        inviteKeys := s.inviteKeys.map (markInviteUsed dto.inviteKey now newUserId) },
      .createdTenant tenant user)

/-- POST /api/user/create handler body (after requireAuth, requireAdmin and
validation): duplicate email check, then create the User under the tenant
from the token.  The response strips the password property; the embedded
response carries the stored record, with the stripping noted here. -/
def userCreateHandler (s : Store) (tenantId : String) (dto : CreateUserDto)
    (hashed : String) (now : Nat) (newId : String) : Store × Resp :=
  if s.users.any (fun u => u.email == dto.email) then
    (s, .badRequest "Email already exists")
  else
    match s.tenants.find? (fun t => t.id == tenantId) with
    | none => (s, .notFound "Tenant not found")
    | some t =>
      let user : User :=
        { id := newId, tenant_id := t.id, username := localPart dto.email,
          email := dto.email, full_name := dto.fullName, password := hashed, role := dto.role,
          created_at := now }
      ({ s with users := s.users ++ [user], hasUser := s.hasUser ++ [(t.id, newId)] },
        .createdUser user)

/-- The requireAdmin guard: 403 unless the verified role claim is admin. -/
def requireAdminCheck (ident : Identity) : Bool := ident.role == "admin"

/-- POST /api/user/create including the requireAdmin guard. -/
def userCreateEndpoint (s : Store) (ident : Identity) (dto : CreateUserDto)
    (hashed : String) (now : Nat) (newId : String) : Store × Resp :=
  if !(requireAdminCheck ident) then (s, .forbidden "Forbidden: Admin access required")
  else userCreateHandler s ident.tenantId dto hashed now newId

/-- POST /api/user/login: find the user by HAS_USER edge and email, then
compare the password.  `passwordOk` is the result of the bcrypt comparison
of the submitted password against the stored digest; an empty stored digest
is falsy and rejected before the comparison. -/
def login (s : Store) (tenantId email : String) (passwordOk : Bool) (token : String) : Resp :=
  match s.users.find? (fun u =>
      u.email == email && s.hasTenantNode tenantId && hasEdge s.hasUser tenantId u.id) with
  | none => .notFound "User not found"
  | some u =>
    if u.password == "" then .unauthorized "Invalid credentials"
    else if passwordOk then .okLogin token u
    else .unauthorized "Invalid credentials"

/-- The Todo node built by the creation query of POST /api/todos. -/
def mkTodo (dto : CreateTodoDto) (now newId userId tenantId : String) : Todo :=
  { id := newId, title := dto.title,
    description := jsOrNull dto.description,
    is_completed := dto.is_completed,
    due_date := jsOrNull dto.due_date,
    priority := dto.priority,
    completed_at := if dto.is_completed then some now else none,
    created_at := now, updated_at := now,
    user_id := userId, tenant_id := tenantId,
    category_id := jsOrNull dto.category_id }

/-- POST /api/todos handler body (after requireAuth and validation):
membership check, atomic creation query, then a separate category-link query
guarded by the truthiness of the request category_id.  The link query
matches the Category by id alone, with no tenant or owner constraint. -/
def createTodo (s : Store) (tenantId userId : String) (dto : CreateTodoDto)
    (now newId : String) : Store × Resp :=
  if !(membershipOk s tenantId userId) then
    (s, .forbidden "User does not belong to this tenant")
  else
    let todo := mkTodo dto now newId userId tenantId
    let s1 : Store := { s with
      todos := s.todos ++ [todo],
      todoBelongsTo := s.todoBelongsTo ++ [(newId, tenantId)],
      todoCreatedBy := s.todoCreatedBy ++ [(newId, userId)] }
    let s2 : Store :=
      match dto.category_id with
      | some cid =>
        if jsTruthy cid && s1.hasTodoNode newId && s1.hasCategoryNode cid then
          { s1 with hasCategory := mergeEdge s1.hasCategory newId cid }
        else s1
      | none => s1
    (s2, .createdTodo todo)

/-- GET /api/todos: todos matching the tenant plus owner scope, ordered by
created_at descending. -/
def listTodos (s : Store) (tenantId userId : String) : List Todo :=
  (s.todos.filter (todoScope s tenantId userId)).mergeSort
    (fun a b => decide (b.created_at ≤ a.created_at))

/-- The match pattern shared by the GET /api/todos/:id and PUT /api/todos/:id
queries: the todo with the given id within the tenant plus owner scope. -/
def todoByIdScope (s : Store) (tenantId userId id : String) (todo : Todo) : Bool :=
  todo.id == id && todoScope s tenantId userId todo

/-- GET /api/todos/:id: single todo by id within the tenant plus owner
scope, 404 otherwise. -/
def getTodo (s : Store) (tenantId userId id : String) : Resp :=
  match s.todos.find? (todoByIdScope s tenantId userId id) with
  | none => .notFound "Todo not found"
  | some todo => .okTodo todo

/-- The `SET todo += updateMap` of PUT /api/todos/:id: every key present in
the raw body is written — the documented fields and the unvalidated
passthrough keys alike — updated_at is always refreshed, and the
is_completed transition, when that key is present, overrides any raw
completed_at value (the handler assigns updateMap.completed_at after the
body spread). -/
def applyTodoUpdate (todo : Todo) (dto : UpdateTodoDto) (now : String) : Todo :=
  { todo with
    title := (match dto.title with | some v => v | none => todo.title),
    description := (match dto.description with | some v => some v | none => todo.description),
    is_completed := (match dto.is_completed with | some v => v | none => todo.is_completed),
    due_date := (match dto.due_date with | some v => v | none => todo.due_date),
    priority := (match dto.priority with | some v => v | none => todo.priority),
    category_id := (match dto.category_id with | some v => v | none => todo.category_id),
    created_at := (match dto.created_at with | some v => v | none => todo.created_at),
    user_id := (match dto.user_id with | some v => v | none => todo.user_id),
    tenant_id := (match dto.tenant_id with | some v => v | none => todo.tenant_id),
    updated_at := now,
    completed_at := (match dto.is_completed with
      | some true => some now
      | some false => none
      | none => (match dto.completed_at with | some v => v | none => todo.completed_at)) }

/-- The relation-clearing query of PUT /api/todos/:id: delete every
HAS_CATEGORY relationship leaving the todo with the given id. -/
def clearTodoCategoryLinks (es : List (String × String)) (id : String) : List (String × String) :=
  es.filter (fun e => !(e.1 == id))

/-- PUT /api/todos/:id handler body: the scoped SET query (404 and no state
change when nothing matches), then, only when the category_id key is present
in the body, the relation-clearing query followed by a MERGE that runs only
for a truthy category_id and silently does nothing when no Category with
that id exists.  The category MERGE matches the Category by id alone. -/
def updateTodo (s : Store) (tenantId userId id : String) (dto : UpdateTodoDto)
    (now : String) : Store × Resp :=
  match s.todos.find? (todoByIdScope s tenantId userId id) with
  | none => (s, .notFound "Todo not found or unauthorized")
  | some first =>
    let s1 : Store := { s with
      todos := s.todos.map (fun t =>
        if todoByIdScope s tenantId userId id t then applyTodoUpdate t dto now else t) }
    let s2 : Store :=
      match dto.category_id with
      | none => s1
      | some v =>
        let s1b : Store := { s1 with hasCategory := clearTodoCategoryLinks s1.hasCategory id }
        match v with
        | none => s1b
        | some cid =>
          if jsTruthy cid && s1b.hasTodoNode id && s1b.hasCategoryNode cid then
            { s1b with hasCategory := mergeEdge s1b.hasCategory id cid }
          else s1b
    (s2, .okTodo (applyTodoUpdate first dto now))

/-- The match predicate of the DELETE /api/todos/:id query: tenant scoped
only, not owner restricted. -/
def deleteTodoScope (s : Store) (tenantId id : String) (todo : Todo) : Bool :=
  s.hasTenantNode tenantId && todo.id == id && hasEdge s.todoBelongsTo todo.id tenantId

/-- DELETE /api/todos/:id handler body: DETACH DELETE of the tenant-scoped
todo, 404 when nothing matched. -/
def deleteTodoHandler (s : Store) (tenantId id : String) : Store × Resp :=
  if s.todos.any (deleteTodoScope s tenantId id) then
    ({ s with
        todos := s.todos.filter (fun t => !(deleteTodoScope s tenantId id t)),
        todoBelongsTo := s.todoBelongsTo.filter (fun e => !(e.1 == id)),
        todoCreatedBy := s.todoCreatedBy.filter (fun e => !(e.1 == id)),
        hasCategory := s.hasCategory.filter (fun e => !(e.1 == id)) },
      .okMsg "Todo deleted")
  else (s, .notFound "Todo not found")

/-- DELETE /api/todos/:id including the requireAdmin guard. -/
def deleteTodoEndpoint (s : Store) (ident : Identity) (id : String) : Store × Resp :=
  if !(requireAdminCheck ident) then (s, .forbidden "Forbidden: Admin access required")
  else deleteTodoHandler s ident.tenantId id

/-- The Category node built by the creation query of POST /api/categories. -/
def mkCategory (dto : CreateCategoryDto) (now newId userId tenantId : String) : Category :=
  { id := newId, name := dto.name, color := dto.color, icon := jsOrNull dto.icon,
    created_at := now, user_id := userId, tenant_id := tenantId }

/-- POST /api/categories handler body: membership check then the atomic
creation query. -/
def createCategory (s : Store) (tenantId userId : String) (dto : CreateCategoryDto)
    (now newId : String) : Store × Resp :=
  if !(membershipOk s tenantId userId) then
    (s, .forbidden "User does not belong to this tenant")
  else
    let category := mkCategory dto now newId userId tenantId
    ({ s with
        categories := s.categories ++ [category],
        catBelongsTo := s.catBelongsTo ++ [(newId, tenantId)],
        catCreatedBy := s.catCreatedBy ++ [(newId, userId)] },
      .createdCategory category)

/-- GET /api/categories: categories in the tenant plus owner scope, ordered
by created_at descending. -/
def listCategories (s : Store) (tenantId userId : String) : List Category :=
  (s.categories.filter (categoryScope s tenantId userId)).mergeSort
    (fun a b => decide (b.created_at ≤ a.created_at))

/-- GET /api/categories/:id. -/
def getCategory (s : Store) (tenantId userId id : String) : Resp :=
  match s.categories.find? (fun c => c.id == id && categoryScope s tenantId userId c) with
  | none => .notFound "Category not found"
  | some c => .okCategory c

/-- The `SET category += updates` of PUT /api/categories/:id: every key
present in the raw body is written, the documented fields and the
unvalidated passthrough keys alike. -/
def applyCategoryUpdate (c : Category) (dto : UpdateCategoryDto) : Category :=
  { c with
    name := (match dto.name with | some v => v | none => c.name),
    color := (match dto.color with | some v => v | none => c.color),
    icon := (match dto.icon with | some v => some v | none => c.icon),
    created_at := (match dto.created_at with | some v => v | none => c.created_at),
    user_id := (match dto.user_id with | some v => v | none => c.user_id),
    tenant_id := (match dto.tenant_id with | some v => v | none => c.tenant_id) }

/-- PUT /api/categories/:id handler body. -/
def updateCategory (s : Store) (tenantId userId id : String) (dto : UpdateCategoryDto) :
    Store × Resp :=
  match s.categories.find? (fun c => c.id == id && categoryScope s tenantId userId c) with
  | none => (s, .notFound "Category not found or unauthorized")
  | some first =>
    ({ s with categories := s.categories.map (fun c =>
        if c.id == id && categoryScope s tenantId userId c then applyCategoryUpdate c dto else c) },
      .okCategory (applyCategoryUpdate first dto))

/-- The cascade query of DELETE /api/categories/:id: set category_id to null
on every Todo node whose category_id property equals the given id, in any
tenant and for any owner. -/
def clearCategoryRefs (todos : List Todo) (id : String) : List Todo :=
  todos.map (fun t => if t.category_id == some id then { t with category_id := none } else t)

/-- The match predicate of the scoped DETACH DELETE query of
DELETE /api/categories/:id: owner plus tenant scoped. -/
def deleteCategoryScope (s : Store) (tenantId userId id : String) (c : Category) : Bool :=
  c.id == id && categoryScope s tenantId userId c

/-- DELETE /api/categories/:id handler body: the tenant-unscoped cascade
query runs first and commits unconditionally; the scoped DETACH DELETE runs
second, and a zero deletedCount yields 404 with the cascade already
applied. -/
def deleteCategory (s : Store) (tenantId userId id : String) : Store × Resp :=
  let s1 : Store := { s with todos := clearCategoryRefs s.todos id }
  if s1.categories.any (deleteCategoryScope s1 tenantId userId id) then
    ({ s1 with
        categories := s1.categories.filter (fun c => !(deleteCategoryScope s1 tenantId userId id c)),
        catBelongsTo := s1.catBelongsTo.filter (fun e => !(e.1 == id)),
        catCreatedBy := s1.catCreatedBy.filter (fun e => !(e.1 == id)),
        hasCategory := s1.hasCategory.filter (fun e => !(e.2 == id)) },
      .okMsg "Category deleted")
  else (s1, .notFound "Category not found")

/-- One inbound API request, carrying the verified identity where the route
is authenticated and the values of the ambient effects (timestamps, fresh
UUIDs, hashing and comparison results, signed token). -/
inductive Request where
  | tenantLookupReq (tenantName : String)
  | tenantCreateReq (dto : TenantCreateDto) (hashed : String) (now : Nat) (newTenantId newUserId : String)
  | userCreateReq (ident : Identity) (dto : CreateUserDto) (hashed : String) (now : Nat) (newId : String)
  | loginReq (tenantId email : String) (passwordOk : Bool) (token : String)
  | todoCreateReq (ident : Identity) (dto : CreateTodoDto) (now newId : String)
  | todoListReq (ident : Identity)
  | todoGetReq (ident : Identity) (id : String)
  | todoUpdateReq (ident : Identity) (id : String) (dto : UpdateTodoDto) (now : String)
  | todoDeleteReq (ident : Identity) (id : String)
  | catCreateReq (ident : Identity) (dto : CreateCategoryDto) (now newId : String)
  | catListReq (ident : Identity)
  | catGetReq (ident : Identity) (id : String)
  | catUpdateReq (ident : Identity) (id : String) (dto : UpdateCategoryDto)
  | catDeleteReq (ident : Identity) (id : String)
  deriving Repr

/-- Dispatch of one request to its endpoint: the next store and the
response. -/
def applyRequest (s : Store) : Request → Store × Resp
  | .tenantLookupReq n => (s, tenantLookup s n)
  | .tenantCreateReq dto hashed now tid uid => tenantCreate s dto hashed now tid uid
  | .userCreateReq ident dto hashed now newId => userCreateEndpoint s ident dto hashed now newId
  | .loginReq tenantId email passwordOk token => (s, login s tenantId email passwordOk token)
  | .todoCreateReq ident dto now newId => createTodo s ident.tenantId ident.userId dto now newId
  | .todoListReq ident => (s, .okTodos (listTodos s ident.tenantId ident.userId))
  | .todoGetReq ident id => (s, getTodo s ident.tenantId ident.userId id)
  | .todoUpdateReq ident id dto now => updateTodo s ident.tenantId ident.userId id dto now
  | .todoDeleteReq ident id => deleteTodoEndpoint s ident id
  | .catCreateReq ident dto now newId => createCategory s ident.tenantId ident.userId dto now newId
  | .catListReq ident => (s, .okCategories (listCategories s ident.tenantId ident.userId))
  | .catGetReq ident id => (s, getCategory s ident.tenantId ident.userId id)
  | .catUpdateReq ident id dto => updateCategory s ident.tenantId ident.userId id dto
  | .catDeleteReq ident id => deleteCategory s ident.tenantId ident.userId id

/-! Helper lemmas shared by the claim theorems. -/

theorem hasEdge_iff (es : List (String × String)) (a b : String) :
    hasEdge es a b = true ↔ (a, b) ∈ es := by
  constructor
  · intro h
    simp only [hasEdge, List.any_eq_true, Bool.and_eq_true, beq_iff_eq] at h
    obtain ⟨e, he, h1, h2⟩ := h
    have hab : e = (a, b) := Prod.ext h1 h2
    rwa [hab] at he
  · intro h
    simp only [hasEdge, List.any_eq_true, Bool.and_eq_true, beq_iff_eq]
    exact ⟨(a, b), h, rfl, rfl⟩

theorem hasEdge_eq_false_of_not_mem (es : List (String × String)) (a b : String)
    (h : (a, b) ∉ es) : hasEdge es a b = false := by
  cases hc : hasEdge es a b
  · rfl
  · exact absurd ((hasEdge_iff es a b).mp hc) h

/-- C2: for every authenticated todo-create or category-create request, if no
HAS_USER link exists in the store between the tokens tenantId and userId, the
operation fails with 403 and message "User does not belong to this tenant"
and the store is unchanged (no todo or category is created), even when the
token claims are internally self-consistent (the identity is arbitrary). -/
theorem membership_gate (s : Store) (ident : Identity) (tdto : CreateTodoDto)
    (cdto : CreateCategoryDto) (now newId now2 newId2 : String)
    (h : (ident.tenantId, ident.userId) ∉ s.hasUser) :
    createTodo s ident.tenantId ident.userId tdto now newId =
      (s, .forbidden "User does not belong to this tenant") ∧
    (createTodo s ident.tenantId ident.userId tdto now newId).2.status = 403 ∧
    createCategory s ident.tenantId ident.userId cdto now2 newId2 =
      (s, .forbidden "User does not belong to this tenant") ∧
    (createCategory s ident.tenantId ident.userId cdto now2 newId2).2.status = 403 := by
  have hedge := hasEdge_eq_false_of_not_mem s.hasUser ident.tenantId ident.userId h
  have hm : membershipOk s ident.tenantId ident.userId = false := by
    simp [membershipOk, hedge]
  refine ⟨?_, ?_, ?_, ?_⟩ <;> simp [createTodo, createCategory, hm, Resp.status]

/-- Witness for membership_gate at a concrete store: the token of user B of
tenant T2 forged to claim tenant T1, where no HAS_USER edge (T1, B) exists. -/
def c2Store : Store :=
  { tenants := [⟨"T1", "One", "one", true⟩, ⟨"T2", "Two", "two", true⟩],
    users := [⟨"A", "T1", "a", "a@one.example", "A", "h", "admin", 0⟩,
              ⟨"B", "T2", "b", "b@two.example", "B", "h", "admin", 0⟩],
    inviteKeys := [], todos := [], categories := [],
    hasUser := [("T1", "A"), ("T2", "B")],
    todoBelongsTo := [], todoCreatedBy := [], catBelongsTo := [], catCreatedBy := [],
    hasCategory := [], invited := [], invitedTenant := [] }

theorem membership_gate_witness :
    ("T1", "B") ∉ c2Store.hasUser ∧
    (createTodo c2Store "T1" "B" ⟨"t", none, false, none, "low", none⟩ "n" "i" =
      (c2Store, .forbidden "User does not belong to this tenant") ∧
    (createTodo c2Store "T1" "B" ⟨"t", none, false, none, "low", none⟩ "n" "i").2.status = 403 ∧
    createCategory c2Store "T1" "B" ⟨"c", "#112233", none⟩ "n2" "i2" =
      (c2Store, .forbidden "User does not belong to this tenant") ∧
    (createCategory c2Store "T1" "B" ⟨"c", "#112233", none⟩ "n2" "i2").2.status = 403) :=
  ⟨by decide,
    membership_gate c2Store ⟨"B", "T1", "admin"⟩ ⟨"t", none, false, none, "low", none⟩
      ⟨"c", "#112233", none⟩ "n" "i" "n2" "i2" (by decide)⟩

/-- C7: a request to DELETE /api/todos/:id or POST /api/user/create carrying
a valid token whose role claim is member is answered 403 (never 200) by the
requireAdmin guard, for every store, target id and body, and the store is
unchanged. -/
theorem role_gating (s1 s2 : Store) (ident : Identity) (id : String) (dto : CreateUserDto)
    (hashed : String) (now : Nat) (newId : String)
    (hrole : ident.role = "member") :
    deleteTodoEndpoint s1 ident id = (s1, .forbidden "Forbidden: Admin access required") ∧
    (deleteTodoEndpoint s1 ident id).2.status = 403 ∧
    (deleteTodoEndpoint s1 ident id).2.status ≠ 200 ∧
    userCreateEndpoint s2 ident dto hashed now newId =
      (s2, .forbidden "Forbidden: Admin access required") ∧
    (userCreateEndpoint s2 ident dto hashed now newId).2.status = 403 ∧
    (userCreateEndpoint s2 ident dto hashed now newId).2.status ≠ 200 := by
  have h : requireAdminCheck ident = false := by
    simp [requireAdminCheck, hrole]
  refine ⟨?_, ?_, ?_, ?_, ?_, ?_⟩ <;>
    simp [deleteTodoEndpoint, userCreateEndpoint, h, Resp.status]

theorem role_gating_witness :
    (⟨"A", "T1", "member"⟩ : Identity).role = "member" ∧
    (deleteTodoEndpoint c2Store ⟨"A", "T1", "member"⟩ "X" =
      (c2Store, .forbidden "Forbidden: Admin access required") ∧
    (deleteTodoEndpoint c2Store ⟨"A", "T1", "member"⟩ "X").2.status = 403 ∧
    (deleteTodoEndpoint c2Store ⟨"A", "T1", "member"⟩ "X").2.status ≠ 200 ∧
    userCreateEndpoint c2Store ⟨"A", "T1", "member"⟩ ⟨"n@x.example", "N", "password1", "member"⟩ "h" 7 "U9" =
      (c2Store, .forbidden "Forbidden: Admin access required") ∧
    (userCreateEndpoint c2Store ⟨"A", "T1", "member"⟩ ⟨"n@x.example", "N", "password1", "member"⟩ "h" 7 "U9").2.status = 403 ∧
    (userCreateEndpoint c2Store ⟨"A", "T1", "member"⟩ ⟨"n@x.example", "N", "password1", "member"⟩ "h" 7 "U9").2.status ≠ 200) :=
  ⟨rfl,
    role_gating c2Store c2Store ⟨"A", "T1", "member"⟩ "X"
      ⟨"n@x.example", "N", "password1", "member"⟩ "h" 7 "U9" rfl⟩

/-- Store for the mass-assignment run: user A owns todo X in tenant T1;
tenant T2 exists.  All tenant_id properties agree with the BELONGS_TO
edges before the request. -/
def c1BugStore : Store :=
  { tenants := [⟨"T1", "One", "one", true⟩, ⟨"T2", "Two", "two", true⟩],
    users := [⟨"A", "T1", "a", "a@one.example", "A", "h", "admin", 0⟩],
    inviteKeys := [],
    todos := [⟨"X", "Mine", none, false, none, "low", none, "t0", "t0", "A", "T1", none⟩],
    categories := [],
    hasUser := [("T1", "A")],
    todoBelongsTo := [("X", "T1")],
    todoCreatedBy := [("X", "A")],
    catBelongsTo := [], catCreatedBy := [], hasCategory := [],
    invited := [], invitedTenant := [] }

/-- The raw body of the attacking update: only the undocumented tenant_id
key, which passes the non-strict zod validation untouched. -/
def c1AttackDto : UpdateTodoDto :=
  ⟨none, none, none, none, none, none, none, none, none, some "T2"⟩

/-- Todo X after the attacking update: tenant_id rewritten to T2 and
updated_at refreshed; the BELONGS_TO edge still points at T1. -/
def c1LeakedTodo : Todo :=
  ⟨"X", "Mine", none, false, none, "low", none, "t0", "u1", "A", "T2", none⟩

/-- C1 is violated by the code.  The validate middleware discards the zod
parse output and the update handler spreads the raw body into
`SET todo += $updateMap`, so the undocumented tenant_id key rewrites the
stored tenant_id.  After the owner of todo X in tenant T1 sends the body
with tenant_id T2, the request succeeds with 200 and the store holds X with
tenant_id T2 while its BELONGS_TO edge stays at T1; the owners list request
then contains X, and get returns X with every field, instead of the
NotFound the claim requires for a todo stored with tenant_id T2 different
from T1. -/
theorem tenant_isolation_code_bug :
    (updateTodo c1BugStore "T1" "A" "X" c1AttackDto "u1").2.status = 200 ∧
    c1LeakedTodo.tenant_id = "T2" ∧ ("T2" : String) ≠ "T1" ∧
    c1LeakedTodo ∈ (updateTodo c1BugStore "T1" "A" "X" c1AttackDto "u1").1.todos ∧
    c1LeakedTodo ∈ listTodos (updateTodo c1BugStore "T1" "A" "X" c1AttackDto "u1").1 "T1" "A" ∧
    getTodo (updateTodo c1BugStore "T1" "A" "X" c1AttackDto "u1").1 "T1" "A" "X" =
      .okTodo c1LeakedTodo := by
  refine ⟨by decide, by decide, by decide, by decide, ?_, by decide⟩
  simp only [listTodos, List.mem_mergeSort]
  decide

/-- Across every embedded endpoint, the invite key records are either left
unchanged or rewritten by the tenant-creation SET clause, which only marks
matching keys used. -/
theorem applyRequest_inviteKeys (s : Store) (req : Request) :
    (applyRequest s req).1.inviteKeys = s.inviteKeys ∨
    ∃ key now uid, (applyRequest s req).1.inviteKeys =
      s.inviteKeys.map (markInviteUsed key now uid) := by
  cases req
  case tenantCreateReq dto hashed now tid uid =>
    simp only [applyRequest, tenantCreate]
    split
    · exact Or.inl rfl
    · split
      · exact Or.inl rfl
      · exact Or.inr ⟨dto.inviteKey, now, uid, rfl⟩
  all_goals
    refine Or.inl ?_
    simp only [applyRequest, userCreateEndpoint, userCreateHandler, createTodo, updateTodo,
      deleteTodoEndpoint, deleteTodoHandler, createCategory, updateCategory, deleteCategory]
    repeat' split
    all_goals rfl

/-- Counterexample to C3 as stated: the duplicate slug-or-email check runs
before the invite key check, so a tenant-create request whose inviteKey
references no unused InviteKey but whose slug is already taken fails 400
with the duplicate message, not with the InvalidInvite message. -/
def c3DupStore : Store :=
  { tenants := [⟨"T0", "Acme", "acme", true⟩], users := [], inviteKeys := [],
    todos := [], categories := [], hasUser := [], todoBelongsTo := [], todoCreatedBy := [],
    catBelongsTo := [], catCreatedBy := [], hasCategory := [], invited := [], invitedTenant := [] }

def c3DupDto : TenantCreateDto :=
  ⟨"Acme Two", "acme", "a@b.example", "A", "password123", "missing-key"⟩

theorem invite_reject_message_counterexample :
    c3DupStore.inviteKeys = [] ∧
    (tenantCreate c3DupStore c3DupDto "h" 0 "NT" "NU").2 =
      .badRequest "Tenant slug or email already exists" ∧
    (tenantCreate c3DupStore c3DupDto "h" 0 "NT" "NU").2 ≠
      .badRequest "Invalid or already used invite key" ∧
    (tenantCreate c3DupStore c3DupDto "h" 0 "NT" "NU").1 = c3DupStore := by decide

/-- C3 (amended): the isUsed flag of an InviteKey only ever transitions from
false to true — across every endpoint, no post-state invite key record with
isUsed false is new, and every used record persists with its key and isUsed
true — and every tenant-create request that passes the duplicate slug/email
check and whose inviteKey does not reference an InviteKey with isUsed false
fails 400 with message "Invalid or already used invite key" and leaves the
store unchanged (no tenant or user created). -/
theorem invite_key_monotonic_and_reject (s : Store) (req : Request)
    (dto : TenantCreateDto) (hashed : String) (now : Nat) (tid uid : String)
    (hslug : ∀ t ∈ s.tenants, t.slug ≠ dto.slug)
    (hemail : ∀ u ∈ s.users, u.email ≠ dto.email)
    (hkey : ∀ k ∈ s.inviteKeys, k.key = dto.inviteKey → k.isUsed = true) :
    (∀ k ∈ (applyRequest s req).1.inviteKeys, k.isUsed = false → k ∈ s.inviteKeys) ∧
    (∀ k ∈ s.inviteKeys, k.isUsed = true →
      ∃ k2 ∈ (applyRequest s req).1.inviteKeys, k2.key = k.key ∧ k2.isUsed = true) ∧
    tenantCreate s dto hashed now tid uid =
      (s, .badRequest "Invalid or already used invite key") := by
  refine ⟨?_, ?_, ?_⟩
  · rcases applyRequest_inviteKeys s req with h | ⟨key, n2, u2, h⟩
    · intro k hk _
      rwa [h] at hk
    · intro k hk hfalse
      rw [h] at hk
      obtain ⟨k0, hk0, hfk⟩ := List.mem_map.mp hk
      by_cases hkey0 : (k0.key == key) = true
      · rw [markInviteUsed, if_pos hkey0] at hfk
        rw [← hfk] at hfalse
        exact Bool.noConfusion hfalse
      · rw [markInviteUsed, if_neg hkey0] at hfk
        rwa [← hfk]
  · rcases applyRequest_inviteKeys s req with h | ⟨key, n2, u2, h⟩
    · intro k hk hu
      exact ⟨k, by rw [h]; exact hk, rfl, hu⟩
    · intro k hk hu
      refine ⟨markInviteUsed key n2 u2 k, by rw [h]; exact List.mem_map.mpr ⟨k, hk, rfl⟩, ?_, ?_⟩
      · rw [markInviteUsed]
        split <;> rfl
      · rw [markInviteUsed]
        split
        · rfl
        · exact hu
  · have h1 : s.tenants.any (fun t => t.slug == dto.slug) = false := by
      rw [List.any_eq_false]
      intro t ht
      simp [hslug t ht]
    have h2 : s.users.any (fun u => u.email == dto.email) = false := by
      rw [List.any_eq_false]
      intro u hu
      simp [hemail u hu]
    have h3 : s.inviteKeys.any (fun k => k.key == dto.inviteKey && k.isUsed == false) = false := by
      rw [List.any_eq_false]
      intro k hk
      simp only [Bool.and_eq_true, beq_iff_eq, not_and]
      intro hkeq
      simp [hkey k hk hkeq]
    unfold tenantCreate
    rw [if_neg (by rw [h1, h2]; decide), if_pos (by rw [h3]; decide)]

def c3MonoStore : Store :=
  { tenants := [], users := [], inviteKeys := [⟨"k1", true, some 5, some "U"⟩],
    todos := [], categories := [], hasUser := [], todoBelongsTo := [], todoCreatedBy := [],
    catBelongsTo := [], catCreatedBy := [], hasCategory := [], invited := [], invitedTenant := [] }

def c3Dto : TenantCreateDto := ⟨"New Corp", "newcorp", "n@x.example", "N", "password123", "k1"⟩

theorem invite_key_monotonic_and_reject_witness :
    (∀ k ∈ c3MonoStore.inviteKeys, k.key = c3Dto.inviteKey → k.isUsed = true) ∧
    ((∀ k ∈ (applyRequest c3MonoStore (.tenantLookupReq "z")).1.inviteKeys,
        k.isUsed = false → k ∈ c3MonoStore.inviteKeys) ∧
     (∀ k ∈ c3MonoStore.inviteKeys, k.isUsed = true →
        ∃ k2 ∈ (applyRequest c3MonoStore (.tenantLookupReq "z")).1.inviteKeys,
          k2.key = k.key ∧ k2.isUsed = true) ∧
     tenantCreate c3MonoStore c3Dto "h" 9 "NT" "NU" =
       (c3MonoStore, .badRequest "Invalid or already used invite key")) :=
  ⟨by decide,
    invite_key_monotonic_and_reject c3MonoStore (.tenantLookupReq "z") c3Dto "h" 9 "NT" "NU"
      (by decide) (by decide) (by decide)⟩

/-- C4: tenant provisioning is all-or-nothing after invite-key validation.
The two validation rejections leave the store untouched and answer 400; the
success path is a single atomic creation query after which the Tenant, its
admin User, the HAS_USER, INVITED and INVITED_TENANT links and the isUsed,
usedAt and usedBy marks on the invite key are all present.  No outcome
commits a proper subset of these artifacts. -/
theorem tenant_provisioning_atomic (s : Store) (dto : TenantCreateDto) (hashed : String)
    (now : Nat) (tid uid : String) :
    ((tenantCreate s dto hashed now tid uid).1 = s ∧
     (tenantCreate s dto hashed now tid uid).2.status = 400) ∨
    ((tenantCreate s dto hashed now tid uid).2 =
       .createdTenant ⟨tid, dto.name, dto.slug, true⟩ (mkAdminUser dto hashed now tid uid) ∧
     (⟨tid, dto.name, dto.slug, true⟩ : Tenant) ∈ (tenantCreate s dto hashed now tid uid).1.tenants ∧
     mkAdminUser dto hashed now tid uid ∈ (tenantCreate s dto hashed now tid uid).1.users ∧
     (tid, uid) ∈ (tenantCreate s dto hashed now tid uid).1.hasUser ∧
     (dto.inviteKey, uid) ∈ (tenantCreate s dto hashed now tid uid).1.invited ∧
     (dto.inviteKey, tid) ∈ (tenantCreate s dto hashed now tid uid).1.invitedTenant ∧
     ∃ k2 ∈ (tenantCreate s dto hashed now tid uid).1.inviteKeys,
       k2.key = dto.inviteKey ∧ k2.isUsed = true ∧ k2.usedAt = some now ∧ k2.usedBy = some uid) := by
  by_cases h1 : (s.tenants.any (fun t => t.slug == dto.slug) ||
      s.users.any (fun u => u.email == dto.email)) = true
  · left
    have heq : tenantCreate s dto hashed now tid uid =
        (s, .badRequest "Tenant slug or email already exists") := by
      unfold tenantCreate
      rw [if_pos h1]
    rw [heq]
    exact ⟨rfl, rfl⟩
  · rw [Bool.not_eq_true] at h1
    by_cases h2 : s.inviteKeys.any (fun k => k.key == dto.inviteKey && k.isUsed == false) = true
    · right
      obtain ⟨k0, hk0, hp⟩ := List.any_eq_true.mp h2
      simp only [Bool.and_eq_true, beq_iff_eq] at hp
      have heq : tenantCreate s dto hashed now tid uid =
          ({ s with
              tenants := s.tenants ++ [⟨tid, dto.name, dto.slug, true⟩],
              users := s.users ++ [mkAdminUser dto hashed now tid uid],
              hasUser := s.hasUser ++ [(tid, uid)],
              invited := s.invited ++ [(dto.inviteKey, uid)],
              invitedTenant := s.invitedTenant ++ [(dto.inviteKey, tid)],
              inviteKeys := s.inviteKeys.map (markInviteUsed dto.inviteKey now uid) },
            .createdTenant ⟨tid, dto.name, dto.slug, true⟩ (mkAdminUser dto hashed now tid uid)) := by
        unfold tenantCreate
        rw [if_neg (by rw [h1]; decide), if_neg (by rw [h2]; decide)]
      rw [heq]
      refine ⟨rfl, ?_, ?_, ?_, ?_, ?_, ?_⟩
      · simp
      · simp
      · simp
      · simp
      · simp
      · refine ⟨markInviteUsed dto.inviteKey now uid k0,
          List.mem_map.mpr ⟨k0, hk0, rfl⟩, ?_⟩
        rw [markInviteUsed, if_pos (by simp [hp.1])]
        exact ⟨hp.1, rfl, rfl, rfl⟩
    · left
      rw [Bool.not_eq_true] at h2
      have heq : tenantCreate s dto hashed now tid uid =
          (s, .badRequest "Invalid or already used invite key") := by
        unfold tenantCreate
        rw [if_neg (by rw [h1]; decide), if_pos (by rw [h2]; decide)]
      rw [heq]
      exact ⟨rfl, rfl⟩

/-- Both branches of the category delete handler keep the todos produced by
the cascade query: the scoped DETACH DELETE only touches the category and
its relationships. -/
theorem deleteCategory_todos (s : Store) (tenantId userId id : String) :
    (deleteCategory s tenantId userId id).1.todos = clearCategoryRefs s.todos id := by
  unfold deleteCategory
  dsimp only
  split <;> rfl

theorem clearCategoryRefs_not_ref (todos : List Todo) (id : String) :
    ∀ t ∈ clearCategoryRefs todos id, t.category_id ≠ some id := by
  intro t ht
  rw [clearCategoryRefs] at ht
  obtain ⟨t0, ht0, hft⟩ := List.mem_map.mp ht
  by_cases hc : (t0.category_id == some id) = true
  · rw [if_pos hc] at hft
    rw [← hft]
    simp
  · rw [if_neg hc] at hft
    rw [← hft]
    exact fun h => hc (by simp [h])

theorem clearCategoryRefs_mem (todos : List Todo) (id : String) (t : Todo)
    (ht : t ∈ todos) (h : t.category_id = some id) :
    { t with category_id := none } ∈ clearCategoryRefs todos id := by
  rw [clearCategoryRefs]
  refine List.mem_map.mpr ⟨t, ht, ?_⟩
  rw [if_pos (by simp [h])]

/-- C5: for every successful category delete, every todo that referenced the
deleted id — in any tenant, owned by any user — has category_id null
afterwards; the post todos are exactly the cascade image of the pre todos,
which matches by category_id only, with no tenant or owner constraint. -/
theorem category_cascade (s : Store) (tenantId userId id : String)
    (hok : (deleteCategory s tenantId userId id).2 = .okMsg "Category deleted") :
    (deleteCategory s tenantId userId id).1.todos = clearCategoryRefs s.todos id ∧
    (∀ t ∈ s.todos, t.category_id = some id →
      { t with category_id := none } ∈ (deleteCategory s tenantId userId id).1.todos) ∧
    (∀ t ∈ (deleteCategory s tenantId userId id).1.todos, t.category_id ≠ some id) := by
  refine ⟨deleteCategory_todos s tenantId userId id, ?_, ?_⟩
  · intro t ht h
    rw [deleteCategory_todos]
    exact clearCategoryRefs_mem s.todos id t ht h
  · intro t ht
    rw [deleteCategory_todos] at ht
    exact clearCategoryRefs_not_ref s.todos id t ht

/-- Store for the cascade witnesses: category C1 owned by user A in tenant
T1, referenced by todo X of tenant T1 and by todo Y of the other tenant
T2. -/
def c5Store : Store :=
  { tenants := [⟨"T1", "One", "one", true⟩, ⟨"T2", "Two", "two", true⟩],
    users := [⟨"A", "T1", "a", "a@one.example", "A", "h", "admin", 0⟩,
              ⟨"B", "T2", "b", "b@two.example", "B", "h", "admin", 0⟩],
    inviteKeys := [],
    todos := [⟨"X", "t1", none, false, none, "low", none, "t0", "t0", "A", "T1", some "C1"⟩,
              ⟨"Y", "t2", none, false, none, "low", none, "t0", "t0", "B", "T2", some "C1"⟩],
    categories := [⟨"C1", "Work", "#112233", none, "t0", "A", "T1"⟩],
    hasUser := [("T1", "A"), ("T2", "B")],
    todoBelongsTo := [("X", "T1"), ("Y", "T2")],
    todoCreatedBy := [("X", "A"), ("Y", "B")],
    catBelongsTo := [("C1", "T1")],
    catCreatedBy := [("C1", "A")],
    hasCategory := [("X", "C1"), ("Y", "C1")],
    invited := [], invitedTenant := [] }

theorem category_cascade_witness :
    (deleteCategory c5Store "T1" "A" "C1").2 = .okMsg "Category deleted" ∧
    ((deleteCategory c5Store "T1" "A" "C1").1.todos = clearCategoryRefs c5Store.todos "C1" ∧
     (∀ t ∈ c5Store.todos, t.category_id = some "C1" →
       { t with category_id := none } ∈ (deleteCategory c5Store "T1" "A" "C1").1.todos) ∧
     (∀ t ∈ (deleteCategory c5Store "T1" "A" "C1").1.todos, t.category_id ≠ some "C1")) :=
  ⟨by decide, category_cascade c5Store "T1" "A" "C1" (by decide)⟩

/-- C9: a category delete that answers NotFound (id absent, or the category
owned by another user or tenant) still commits the tenant-unscoped cascade:
every todo referencing the id has category_id nulled by the failed
request. -/
theorem category_delete_notfound_cascade (s : Store) (tenantId userId id : String)
    (hnf : (deleteCategory s tenantId userId id).2 = .notFound "Category not found")
    (href : ∃ t ∈ s.todos, t.category_id = some id) :
    (deleteCategory s tenantId userId id).1.todos = clearCategoryRefs s.todos id ∧
    (∃ t ∈ s.todos, t.category_id = some id ∧
      { t with category_id := none } ∈ (deleteCategory s tenantId userId id).1.todos) ∧
    (∀ t ∈ (deleteCategory s tenantId userId id).1.todos, t.category_id ≠ some id) := by
  obtain ⟨t0, ht0, hc0⟩ := href
  refine ⟨deleteCategory_todos s tenantId userId id, ⟨t0, ht0, hc0, ?_⟩, ?_⟩
  · rw [deleteCategory_todos]
    exact clearCategoryRefs_mem s.todos id t0 ht0 hc0
  · intro t ht
    rw [deleteCategory_todos] at ht
    exact clearCategoryRefs_not_ref s.todos id t ht

/-- Store for the failed-delete witness: category C2 is owned by user B in
tenant T2, while the caller is user A of tenant T1 and the todo X of tenant
T1 references C2. -/
def c9Store : Store :=
  { tenants := [⟨"T1", "One", "one", true⟩, ⟨"T2", "Two", "two", true⟩],
    users := [⟨"A", "T1", "a", "a@one.example", "A", "h", "admin", 0⟩,
              ⟨"B", "T2", "b", "b@two.example", "B", "h", "admin", 0⟩],
    inviteKeys := [],
    todos := [⟨"X", "t1", none, false, none, "low", none, "t0", "t0", "A", "T1", some "C2"⟩],
    categories := [⟨"C2", "Foreign", "#112233", none, "t0", "B", "T2"⟩],
    hasUser := [("T1", "A"), ("T2", "B")],
    todoBelongsTo := [("X", "T1")],
    todoCreatedBy := [("X", "A")],
    catBelongsTo := [("C2", "T2")],
    catCreatedBy := [("C2", "B")],
    hasCategory := [("X", "C2")],
    invited := [], invitedTenant := [] }

theorem category_delete_notfound_cascade_witness :
    (deleteCategory c9Store "T1" "A" "C2").2 = .notFound "Category not found" ∧
    ((deleteCategory c9Store "T1" "A" "C2").1.todos = clearCategoryRefs c9Store.todos "C2" ∧
     (∃ t ∈ c9Store.todos, t.category_id = some "C2" ∧
       { t with category_id := none } ∈ (deleteCategory c9Store "T1" "A" "C2").1.todos) ∧
     (∀ t ∈ (deleteCategory c9Store "T1" "A" "C2").1.todos, t.category_id ≠ some "C2")) :=
  ⟨by decide, category_delete_notfound_cascade c9Store "T1" "A" "C2" (by decide) (by decide)⟩

/-- The raw body of the invariant-breaking update: only the undocumented
completed_at key, with is_completed absent; it passes the non-strict zod
validation untouched and is spread into the SET map. -/
def c6AttackDto : UpdateTodoDto :=
  ⟨none, none, none, none, none, none, some (some "x"), none, none, none⟩

/-- Todo X of c5Store after the invariant-breaking update: completed_at
written directly while is_completed stays false. -/
def c6BrokenTodo : Todo :=
  ⟨"X", "t1", none, false, none, "low", some "x", "t0", "u1", "A", "T1", some "C1"⟩

/-- C6 is violated by the code.  The validate middleware discards the zod
parse output and the update handler spreads the raw body into
`SET todo += $updateMap`; with is_completed absent neither completed_at
branch fires, so the undocumented completed_at key of the body is written
directly.  Starting from a store in which every todo satisfies the claimed
iff, the update answers 200 and leaves a stored todo with is_completed
false and completed_at non-null immediately after the update. -/
theorem completion_timestamp_code_bug :
    (∀ t ∈ c5Store.todos, t.is_completed = true ↔ t.completed_at ≠ none) ∧
    c6AttackDto.is_completed = none ∧
    (updateTodo c5Store "T1" "A" "X" c6AttackDto "u1").2.status = 200 ∧
    c6BrokenTodo ∈ (updateTodo c5Store "T1" "A" "X" c6AttackDto "u1").1.todos ∧
    c6BrokenTodo.is_completed = false ∧
    c6BrokenTodo.completed_at = some "x" := by decide

/-- C10: the category link queries of todo create and todo update match the
Category by id alone.  At this concrete store, user A authenticated in
tenant T1 creates a todo with the category_id of category C2 of tenant T2
and updates their existing todo X to it; both succeed and both produce a
cross-tenant HAS_CATEGORY link. -/
def c10Cat : Category := ⟨"C2", "Foreign", "#112233", none, "t0", "B", "T2"⟩

def c10CreateDto : CreateTodoDto := ⟨"Cross", none, false, none, "low", some "C2"⟩

def c10UpdateDto : UpdateTodoDto :=
  ⟨none, none, none, none, none, some (some "C2"), none, none, none, none⟩

theorem cross_tenant_category_link :
    c10Cat ∈ c9Store.categories ∧ c10Cat.tenant_id = "T2" ∧ ("T2" : String) ≠ "T1" ∧
    (createTodo c9Store "T1" "A" c10CreateDto "t1" "NEW").2 =
      .createdTodo (mkTodo c10CreateDto "t1" "NEW" "A" "T1") ∧
    (mkTodo c10CreateDto "t1" "NEW" "A" "T1").category_id = some "C2" ∧
    (mkTodo c10CreateDto "t1" "NEW" "A" "T1").tenant_id = "T1" ∧
    ("NEW", "C2") ∈ (createTodo c9Store "T1" "A" c10CreateDto "t1" "NEW").1.hasCategory ∧
    (updateTodo c9Store "T1" "A" "X" c10UpdateDto "t2").2.status = 200 ∧
    ("X", "C2") ∈ (updateTodo c9Store "T1" "A" "X" c10UpdateDto "t2").1.hasCategory := by decide

end TodoApp
